import Mathlib

/-!
Verification of the Go DDS connector binding (package rti).

Shallow embedding of the handle-lifecycle and field-access layer of the
repository.  The opaque native middleware is modelled as an oracle
(`NativeEnv`): a family of response functions indexed by the boundary call
that was made.  Every boundary call performed by the Go code is recorded in
a trace (`NativeCallDesc`), so that theorems can speak about which native
calls an operation dispatches and with which arguments.  C pointers are
modelled as `Option Nat` (with `none` standing for the null pointer), and
heap-allocated C name buffers as `Nat` identifiers handed out by an
allocation counter (`AllocState`); buffer allocation and release events are
recorded in the trace of the operations that own them.

Go pointer back-references (an Input holds a pointer to its Connector, a
Samples view holds a pointer to its Input, and so on) are modelled by
passing the pointed-to value explicitly to each operation, with `none`
standing for a nil pointer; this models the aliasing through which a child
handle observes that its connector was deleted.  A Go nil-pointer
dereference (runtime panic) is modelled by the `GoOutcome.nilPanic`
outcome; a returned Go error value is an `Option String` (with `none` for
a nil error), since every error produced by this package is identified by
its message.

The payload of the C double out-parameter of the numeric getters is
modelled as the integer value it carries (`Int`); the narrowing
conversions `uint8(..)`, `int32(..)`, etc. applied to it by the Go getters
are modelled as truncate-and-wrap to the target width.  Transient C
buffers for field names inside the accessors are allocated and released
within one call by a `defer`; they are not recorded in accessor traces,
which record boundary calls only (the lookup helpers `newOutput` and
`newInput`, whose buffer handling is the subject of a claim, do record
their allocation and release events).
-/

/-- One call across the C boundary, together with the arguments the Go code
passed: the (possibly null) native connector handle, the C buffer id
holding the entity name, and any indices, field names and payloads.
`alloc` and `free` record C heap management of name buffers. -/
inductive NativeCallDesc where
  | alloc (buf : Nat)
  | free (buf : Nat)
  | connectorDelete (h : Nat)
  | getDatawriter (conn : Option Nat) (buf : Nat)
  | getDatareader (conn : Option Nat) (buf : Nat)
  | waitForData (conn : Option Nat) (timeoutMs : Int)
  | read (conn : Option Nat) (buf : Nat)
  | take (conn : Option Nat) (buf : Nat)
  | write (conn : Option Nat) (buf : Nat) (params : Option String)
  | clear (conn : Option Nat) (buf : Nat)
  | waitForMatchedPublication (reader : Option Nat) (timeoutMs : Int)
  | getMatchedPublications (reader : Option Nat)
  | waitForMatchedSubscription (writer : Option Nat) (timeoutMs : Int)
  | getMatchedSubscriptions (writer : Option Nat)
  | getNumberFromSample (conn : Option Nat) (buf : Nat) (index : Int) (field : String)
  | getBooleanFromSample (conn : Option Nat) (buf : Nat) (index : Int) (field : String)
  | getStringFromSample (conn : Option Nat) (buf : Nat) (index : Int) (field : String)
  | getJSONSample (conn : Option Nat) (buf : Nat) (index : Int)
  | getBooleanFromInfos (conn : Option Nat) (buf : Nat) (index : Int) (member : String)
  | getJSONFromInfos (conn : Option Nat) (buf : Nat) (index : Int) (member : String)
  | getSampleCount (conn : Option Nat) (buf : Nat)
  | setNumber (conn : Option Nat) (buf : Nat) (field : String) (value : Int)
  | setString (conn : Option Nat) (buf : Nat) (field : String) (value : String)
  | setBoolean (conn : Option Nat) (buf : Nat) (field : String) (value : Int)
  | setJSONInstance (conn : Option Nat) (buf : Nat) (blob : String)
  deriving DecidableEq, Repr

/-- The sequence of boundary calls one Go operation performs. -/
abbrev Trace := List NativeCallDesc

/-- Outcome of running a Go operation: either it returns a value (for
fallible operations the value includes an `Option String` error component,
`none` meaning the nil error), or it hits a nil-pointer dereference and
panics. -/
inductive GoOutcome (α : Type) where
  | ok : α → GoOutcome α
  | nilPanic : GoOutcome α
  deriving DecidableEq, Repr

/-- Map over the returned value of an outcome (a panic stays a panic). -/
def GoOutcome.map {α β : Type} (f : α → β) : GoOutcome α → GoOutcome β
  | .ok a => .ok (f a)
  | .nilPanic => .nilPanic

/-- The oracle standing for the opaque native middleware: the responses it
gives to each boundary call.  `datawriter` and `datareader` give the native
handle a name lookup returns (`none` is the NULL result for an unknown
name); `retcode` is the integer status of a call; `double`, `cint` and
`cstr` are the values the native layer writes into out-parameters; and
`lastErrorMessage` is the detail text of its last-error facility (the
empty string when it has no detail to offer). -/
structure NativeEnv where
  datawriter : String → Option Nat
  datareader : String → Option Nat
  retcode : NativeCallDesc → Int
  double : NativeCallDesc → Int
  cint : NativeCallDesc → Int
  cstr : NativeCallDesc → String
  lastErrorMessage : String

/-- The C allocator for name buffers: hands out fresh buffer ids. -/
structure AllocState where
  next : Nat
  deriving DecidableEq, Repr

/-- Go struct Input (input.go): the native DataReader handle, the reader
name, and the id of the C copy of the name.  The Samples and Infos views
and the connector back-pointer carry no state of their own and are passed
to operations explicitly. -/
structure Input where
  native : Option Nat
  name : String
  nameCStr : Nat
  deriving DecidableEq, Repr

/-- Go struct Output (output.go): the native DataWriter handle, the writer
name, and the id of the C copy of the name. -/
structure Output where
  native : Option Nat
  name : String
  nameCStr : Nat
  deriving DecidableEq, Repr

/-- Go struct Connector (rticonnextdds_connector.go): the native root
handle (`none` once deleted) and the collections of child handles. -/
structure Connector where
  native : Option Nat
  Inputs : List Input
  Outputs : List Output
  deriving DecidableEq, Repr

/-- Marker for the stateless Samples view (its only Go field is the
back-pointer to its Input, passed to operations explicitly). -/
inductive Samples where
  | mk
  deriving DecidableEq, Repr

/-- Marker for the stateless Infos view. -/
inductive Infos where
  | mk
  deriving DecidableEq, Repr

/-- Marker for the stateless Instance view (back-pointer to its Output). -/
inductive Instance where
  | mk
  deriving DecidableEq, Repr

/-- Return code constant: no data (rticonnextdds_connector.go). -/
def DDSRetCodeNoData : Int := 11

/-- Return code constant: timeout. -/
def DDSRetCodeTimeout : Int := 10

/-- Return code constant: success. -/
def DDSRetCodeOK : Int := 0

/-- Message of the sentinel error ErrNoData. -/
def ErrNoData : String := "DDS Exception: No Data"

/-- Message of the sentinel error ErrTimeout. -/
def ErrTimeout : String := "DDS Exception: Timeout"

/-- checkRetcode (rticonnextdds_connector.go): maps a boundary status code
to the returned Go error.  `lastErr` is the text the native last-error
facility would give if consulted in the default branch. -/
def checkRetcode (lastErr : String) (retcode : Int) : Option String :=
  if retcode = DDSRetCodeOK then none
  else if retcode = DDSRetCodeNoData then some ErrNoData
  else if retcode = DDSRetCodeTimeout then some ErrTimeout
  else if lastErr = "" then
    some ("DDS Exception: error code " ++ toString retcode ++
      " (no detailed message available from RTI Connector)")
  else
    some ("DDS Exception: " ++ lastErr ++ " (error code " ++ toString retcode ++ ")")

/-- Connector.isValid (rticonnextdds_connector.go): the error returned for
a nil connector or a connector whose native handle has been deleted. -/
def Connector.isValid : Option Connector → Option String
  | none => some "connector is null"
  | some c =>
    match c.native with
    | none => some "connector has been deleted"
    | some _ => none

/-- Connector.Delete (rticonnextdds_connector.go): frees every child name
buffer, deletes the native root handle, nulls it and clears the child
collections; a nil receiver errors and an already-deleted receiver is a
no-op success.  Returns the updated connector, the trace and the error. -/
def Connector.Delete : Option Connector → Option Connector × Trace × Option String
  | none => (none, [], some "connector is null")
  | some c =>
    match c.native with
    | none => (some c, [], none)
    | some h =>
      (some { native := none, Inputs := [], Outputs := [] },
        (c.Inputs.map fun i => NativeCallDesc.free i.nameCStr) ++
        (c.Outputs.map fun o => NativeCallDesc.free o.nameCStr) ++
        [NativeCallDesc.connectorDelete h],
        none)

/-- Result of newOutput: the returned handle, the returned error, the
updated connector, the updated allocator and the trace. -/
structure LookupOutRes where
  output : Option Output
  err : Option String
  conn : Connector
  alloc : AllocState
  trace : Trace
  deriving DecidableEq, Repr

/-- Result of newInput. -/
structure LookupInRes where
  input : Option Input
  err : Option String
  conn : Connector
  alloc : AllocState
  trace : Trace
  deriving DecidableEq, Repr

/-- newOutput (rticonnextdds_connector.go): allocates a C copy of the
name, performs the native DataWriter lookup with it, frees the buffer and
errors when the lookup returns NULL, and otherwise appends the new handle
to the Outputs collection and returns it. -/
def newOutput (env : NativeEnv) (conn : Connector) (outputName : String)
    (st : AllocState) : LookupOutRes :=
  let buf := st.next
  let st1 : AllocState := { next := st.next + 1 }
  match env.datawriter outputName with
  | none =>
    { output := none, err := some "invalid Publication::DataWriter name",
      conn := conn, alloc := st1,
      trace := [NativeCallDesc.alloc buf, NativeCallDesc.getDatawriter conn.native buf,
        NativeCallDesc.free buf] }
  | some w =>
    let o : Output := { native := some w, name := outputName, nameCStr := buf }
    { output := some o, err := none,
      conn := { conn with Outputs := conn.Outputs ++ [o] }, alloc := st1,
      trace := [NativeCallDesc.alloc buf, NativeCallDesc.getDatawriter conn.native buf] }

/-- newInput (rticonnextdds_connector.go): same shape as newOutput, for
the DataReader lookup and the Inputs collection. -/
def newInput (env : NativeEnv) (conn : Connector) (inputName : String)
    (st : AllocState) : LookupInRes :=
  let buf := st.next
  let st1 : AllocState := { next := st.next + 1 }
  match env.datareader inputName with
  | none =>
    { input := none, err := some "invalid Subscription::DataReader name",
      conn := conn, alloc := st1,
      trace := [NativeCallDesc.alloc buf, NativeCallDesc.getDatareader conn.native buf,
        NativeCallDesc.free buf] }
  | some r =>
    let i : Input := { native := some r, name := inputName, nameCStr := buf }
    { input := some i, err := none,
      conn := { conn with Inputs := conn.Inputs ++ [i] }, alloc := st1,
      trace := [NativeCallDesc.alloc buf, NativeCallDesc.getDatareader conn.native buf] }

/-- Result of Connector.GetOutput. -/
structure GetOutputRes where
  output : Option Output
  err : Option String
  conn : Option Connector
  alloc : AllocState
  trace : Trace
  deriving DecidableEq, Repr

/-- Result of Connector.GetInput. -/
structure GetInputRes where
  input : Option Input
  err : Option String
  conn : Option Connector
  alloc : AllocState
  trace : Trace
  deriving DecidableEq, Repr

/-- Connector.GetOutput: validity check, then newOutput. -/
def Connector.GetOutput (env : NativeEnv) (conn : Option Connector)
    (outputName : String) (st : AllocState) : GetOutputRes :=
  match Connector.isValid conn with
  | some e => { output := none, err := some e, conn := conn, alloc := st, trace := [] }
  | none =>
    match conn with
    | some c =>
      let r := newOutput env c outputName st
      { output := r.output, err := r.err, conn := some r.conn, alloc := r.alloc,
        trace := r.trace }
    | none =>
      { output := none, err := some "connector is null", conn := conn,
        alloc := st, trace := [] }

/-- Connector.GetInput: validity check, then newInput. -/
def Connector.GetInput (env : NativeEnv) (conn : Option Connector)
    (inputName : String) (st : AllocState) : GetInputRes :=
  match Connector.isValid conn with
  | some e => { input := none, err := some e, conn := conn, alloc := st, trace := [] }
  | none =>
    match conn with
    | some c =>
      let r := newInput env c inputName st
      { input := r.input, err := r.err, conn := some r.conn, alloc := r.alloc,
        trace := r.trace }
    | none =>
      { input := none, err := some "connector is null", conn := conn,
        alloc := st, trace := [] }

/-- Connector.Wait: validity check, then the native blocking wait. -/
def Connector.Wait (env : NativeEnv) (conn : Option Connector) (timeoutMs : Int) :
    Trace × Option String :=
  match conn with
  | none => ([], some "connector is null")
  | some c =>
    match c.native with
    | none => ([], some "connector has been deleted")
    | some h =>
      let call := NativeCallDesc.waitForData (some h) timeoutMs
      ([call], checkRetcode env.lastErrorMessage (env.retcode call))

/-- Output.isValid (output.go): nil-output, nil-connector and
deleted-connector checks, in that order. -/
def Output.isValid (conn : Option Connector) (output : Option Output) : Option String :=
  match output with
  | none => some "output is null"
  | some _ =>
    match conn with
    | none => some "output connector is null"
    | some c =>
      match c.native with
      | none => some "connector has been deleted"
      | some _ => none

/-- The connector handle an Output operation passes to the boundary after
its validity check succeeded (the dereference of output.connector.native). -/
def connNative : Option Connector → Option Nat
  | none => none
  | some c => c.native

/-- The name buffer of an Output, as dereferenced after a validity check. -/
def outputBuf : Option Output → Nat
  | none => 0
  | some o => o.nameCStr

/-- The native writer handle of an Output (output.native). -/
def outputNative : Option Output → Option Nat
  | none => none
  | some o => o.native

/-- Output.Write (output.go): validity check, then the native write with a
null params argument. -/
def Output.Write (env : NativeEnv) (conn : Option Connector) (output : Option Output) :
    Trace × Option String :=
  match Output.isValid conn output with
  | some e => ([], some e)
  | none =>
    let call := NativeCallDesc.write (connNative conn) (outputBuf output) none
    ([call], checkRetcode env.lastErrorMessage (env.retcode call))

/-- Output.WriteWithParams (output.go): validity check, then the native
write with the params JSON string. -/
def Output.WriteWithParams (env : NativeEnv) (conn : Option Connector)
    (output : Option Output) (jsonStr : String) : Trace × Option String :=
  match Output.isValid conn output with
  | some e => ([], some e)
  | none =>
    let call := NativeCallDesc.write (connNative conn) (outputBuf output) (some jsonStr)
    ([call], checkRetcode env.lastErrorMessage (env.retcode call))

/-- Output.ClearMembers (output.go). -/
def Output.ClearMembers (env : NativeEnv) (conn : Option Connector)
    (output : Option Output) : Trace × Option String :=
  match Output.isValid conn output with
  | some e => ([], some e)
  | none =>
    let call := NativeCallDesc.clear (connNative conn) (outputBuf output)
    ([call], checkRetcode env.lastErrorMessage (env.retcode call))

/-- Output.WaitForSubscriptions (output.go): validity check, then the
native wait on the writer handle; returns the match-count delta and the
error (minus one with the validity error). -/
def Output.WaitForSubscriptions (env : NativeEnv) (conn : Option Connector)
    (output : Option Output) (timeoutMs : Int) : Trace × (Int × Option String) :=
  match Output.isValid conn output with
  | some e => ([], (-1, some e))
  | none =>
    let call := NativeCallDesc.waitForMatchedSubscription (outputNative output) timeoutMs
    ([call], (env.cint call, checkRetcode env.lastErrorMessage (env.retcode call)))

/-- Output.GetMatchedSubscriptions (output.go): validity check, then the
native query on the writer handle; on a native error returns the empty
string with the error, on success copies the returned C string. -/
def Output.GetMatchedSubscriptions (env : NativeEnv) (conn : Option Connector)
    (output : Option Output) : Trace × (String × Option String) :=
  match Output.isValid conn output with
  | some e => ([], ("", some e))
  | none =>
    let call := NativeCallDesc.getMatchedSubscriptions (outputNative output)
    ([call],
      match checkRetcode env.lastErrorMessage (env.retcode call) with
      | some e => ("", some e)
      | none => (env.cstr call, none))

/-- Input.Read (input.go): only a nil-receiver check, then the native read
with the dereferenced connector handle (null if the connector was
deleted); a nil connector back-pointer would be a nil dereference. -/
def Input.Read (env : NativeEnv) (conn : Option Connector) (input : Option Input) :
    Trace × GoOutcome (Option String) :=
  match input with
  | none => ([], GoOutcome.ok (some "input is null"))
  | some i =>
    match conn with
    | none => ([], GoOutcome.nilPanic)
    | some c =>
      let call := NativeCallDesc.read c.native i.nameCStr
      ([call], GoOutcome.ok (checkRetcode env.lastErrorMessage (env.retcode call)))

/-- Input.Take (input.go): same shape as Input.Read. -/
def Input.Take (env : NativeEnv) (conn : Option Connector) (input : Option Input) :
    Trace × GoOutcome (Option String) :=
  match input with
  | none => ([], GoOutcome.ok (some "input is null"))
  | some i =>
    match conn with
    | none => ([], GoOutcome.nilPanic)
    | some c =>
      let call := NativeCallDesc.take c.native i.nameCStr
      ([call], GoOutcome.ok (checkRetcode env.lastErrorMessage (env.retcode call)))

/-- Input.WaitForPublications (input.go): only a nil-receiver check, then
the native wait on the stored reader handle (the connector is not
consulted). -/
def Input.WaitForPublications (env : NativeEnv) (input : Option Input)
    (timeoutMs : Int) : Trace × GoOutcome (Int × Option String) :=
  match input with
  | none => ([], GoOutcome.ok (-1, some "input is null"))
  | some i =>
    let call := NativeCallDesc.waitForMatchedPublication i.native timeoutMs
    ([call], GoOutcome.ok (env.cint call, checkRetcode env.lastErrorMessage (env.retcode call)))

/-- Input.GetMatchedPublications (input.go): only a nil-receiver check,
then the native query on the stored reader handle. -/
def Input.GetMatchedPublications (env : NativeEnv) (input : Option Input) :
    Trace × GoOutcome (String × Option String) :=
  match input with
  | none => ([], GoOutcome.ok ("", some "input is null"))
  | some i =>
    let call := NativeCallDesc.getMatchedPublications i.native
    ([call],
      GoOutcome.ok
        (match checkRetcode env.lastErrorMessage (env.retcode call) with
         | some e => ("", some e)
         | none => (env.cstr call, none)))

/-- Truncate-and-wrap to an unsigned width, the model of the Go narrowing
conversions uintN(..) and byte(..) applied to the numeric payload. -/
def wrapU (w : Nat) (v : Int) : Int := v.emod (2 ^ w)

/-- Truncate-and-wrap to a signed width, the model of the Go narrowing
conversions intN(..) and rune(..). -/
def wrapS (w : Nat) (v : Int) : Int := (v + 2 ^ (w - 1)).emod (2 ^ w) - 2 ^ (w - 1)

/-- Samples.getNumber (sample.go): nil-receiver check returning an error
value, then the native read-as-double at native index index+1; the value
of the double out-parameter and the mapped retcode are returned together.
A nil Input back-pointer or nil Connector back-pointer is dereferenced
without a check. -/
def Samples.getNumber (env : NativeEnv) (conn : Option Connector)
    (input : Option Input) (samples : Option Samples) (index : Int) (fieldName : String) :
    Trace × GoOutcome (Int × Option String) :=
  match samples with
  | none => ([], GoOutcome.ok (0, some "samples is null"))
  | some _ =>
    match input with
    | none => ([], GoOutcome.nilPanic)
    | some i =>
      match conn with
      | none => ([], GoOutcome.nilPanic)
      | some c =>
        let call := NativeCallDesc.getNumberFromSample c.native i.nameCStr (index + 1) fieldName
        ([call],
          GoOutcome.ok (env.double call, checkRetcode env.lastErrorMessage (env.retcode call)))

/-- Samples.GetLength (sample.go): nil-receiver check, then the native
sample count (returned as a double, converted to int). -/
def Samples.GetLength (env : NativeEnv) (conn : Option Connector)
    (input : Option Input) (samples : Option Samples) :
    Trace × GoOutcome (Int × Option String) :=
  match samples with
  | none => ([], GoOutcome.ok (0, some "samples is null"))
  | some _ =>
    match input with
    | none => ([], GoOutcome.nilPanic)
    | some i =>
      match conn with
      | none => ([], GoOutcome.nilPanic)
      | some c =>
        let call := NativeCallDesc.getSampleCount c.native i.nameCStr
        ([call],
          GoOutcome.ok (env.double call, checkRetcode env.lastErrorMessage (env.retcode call)))

/-- Samples.GetUint8 (sample.go): getNumber, then uint8(retVal). -/
def Samples.GetUint8 (env : NativeEnv) (conn : Option Connector) (input : Option Input)
    (samples : Option Samples) (index : Int) (fieldName : String) :
    Trace × GoOutcome (Int × Option String) :=
  let r := Samples.getNumber env conn input samples index fieldName
  (r.1, r.2.map fun p => (wrapU 8 p.1, p.2))

/-- Samples.GetUint16 (sample.go). -/
def Samples.GetUint16 (env : NativeEnv) (conn : Option Connector) (input : Option Input)
    (samples : Option Samples) (index : Int) (fieldName : String) :
    Trace × GoOutcome (Int × Option String) :=
  let r := Samples.getNumber env conn input samples index fieldName
  (r.1, r.2.map fun p => (wrapU 16 p.1, p.2))

/-- Samples.GetUint32 (sample.go). -/
def Samples.GetUint32 (env : NativeEnv) (conn : Option Connector) (input : Option Input)
    (samples : Option Samples) (index : Int) (fieldName : String) :
    Trace × GoOutcome (Int × Option String) :=
  let r := Samples.getNumber env conn input samples index fieldName
  (r.1, r.2.map fun p => (wrapU 32 p.1, p.2))

/-- Samples.GetUint64 (sample.go). -/
def Samples.GetUint64 (env : NativeEnv) (conn : Option Connector) (input : Option Input)
    (samples : Option Samples) (index : Int) (fieldName : String) :
    Trace × GoOutcome (Int × Option String) :=
  let r := Samples.getNumber env conn input samples index fieldName
  (r.1, r.2.map fun p => (wrapU 64 p.1, p.2))

/-- Samples.GetInt8 (sample.go). -/
def Samples.GetInt8 (env : NativeEnv) (conn : Option Connector) (input : Option Input)
    (samples : Option Samples) (index : Int) (fieldName : String) :
    Trace × GoOutcome (Int × Option String) :=
  let r := Samples.getNumber env conn input samples index fieldName
  (r.1, r.2.map fun p => (wrapS 8 p.1, p.2))

/-- Samples.GetInt16 (sample.go). -/
def Samples.GetInt16 (env : NativeEnv) (conn : Option Connector) (input : Option Input)
    (samples : Option Samples) (index : Int) (fieldName : String) :
    Trace × GoOutcome (Int × Option String) :=
  let r := Samples.getNumber env conn input samples index fieldName
  (r.1, r.2.map fun p => (wrapS 16 p.1, p.2))

/-- Samples.GetInt32 (sample.go). -/
def Samples.GetInt32 (env : NativeEnv) (conn : Option Connector) (input : Option Input)
    (samples : Option Samples) (index : Int) (fieldName : String) :
    Trace × GoOutcome (Int × Option String) :=
  let r := Samples.getNumber env conn input samples index fieldName
  (r.1, r.2.map fun p => (wrapS 32 p.1, p.2))

/-- Samples.GetInt64 (sample.go). -/
def Samples.GetInt64 (env : NativeEnv) (conn : Option Connector) (input : Option Input)
    (samples : Option Samples) (index : Int) (fieldName : String) :
    Trace × GoOutcome (Int × Option String) :=
  let r := Samples.getNumber env conn input samples index fieldName
  (r.1, r.2.map fun p => (wrapS 64 p.1, p.2))

/-- Samples.GetInt (sample.go); the build targets a 64-bit Go int. -/
def Samples.GetInt (env : NativeEnv) (conn : Option Connector) (input : Option Input)
    (samples : Option Samples) (index : Int) (fieldName : String) :
    Trace × GoOutcome (Int × Option String) :=
  let r := Samples.getNumber env conn input samples index fieldName
  (r.1, r.2.map fun p => (wrapS 64 p.1, p.2))

/-- Samples.GetUint (sample.go); 64-bit Go uint. -/
def Samples.GetUint (env : NativeEnv) (conn : Option Connector) (input : Option Input)
    (samples : Option Samples) (index : Int) (fieldName : String) :
    Trace × GoOutcome (Int × Option String) :=
  let r := Samples.getNumber env conn input samples index fieldName
  (r.1, r.2.map fun p => (wrapU 64 p.1, p.2))

/-- Samples.GetByte (sample.go); byte is uint8. -/
def Samples.GetByte (env : NativeEnv) (conn : Option Connector) (input : Option Input)
    (samples : Option Samples) (index : Int) (fieldName : String) :
    Trace × GoOutcome (Int × Option String) :=
  let r := Samples.getNumber env conn input samples index fieldName
  (r.1, r.2.map fun p => (wrapU 8 p.1, p.2))

/-- Samples.GetRune (sample.go); rune is int32. -/
def Samples.GetRune (env : NativeEnv) (conn : Option Connector) (input : Option Input)
    (samples : Option Samples) (index : Int) (fieldName : String) :
    Trace × GoOutcome (Int × Option String) :=
  let r := Samples.getNumber env conn input samples index fieldName
  (r.1, r.2.map fun p => (wrapS 32 p.1, p.2))

/-- Samples.GetFloat32 (sample.go): float32(retVal).  With the payload
modelled as the integral value carried by the double, the binary32
rounding is not modelled numerically; the funneling through getNumber and
the untouched error component are. -/
def Samples.GetFloat32 (env : NativeEnv) (conn : Option Connector) (input : Option Input)
    (samples : Option Samples) (index : Int) (fieldName : String) :
    Trace × GoOutcome (Int × Option String) :=
  let r := Samples.getNumber env conn input samples index fieldName
  (r.1, r.2.map fun p => (p.1, p.2))

/-- Samples.GetFloat64 (sample.go): float64(retVal), the identity on the
payload. -/
def Samples.GetFloat64 (env : NativeEnv) (conn : Option Connector) (input : Option Input)
    (samples : Option Samples) (index : Int) (fieldName : String) :
    Trace × GoOutcome (Int × Option String) :=
  let r := Samples.getNumber env conn input samples index fieldName
  (r.1, r.2.map fun p => (p.1, p.2))

/-- Samples.GetBoolean (sample.go): nil-receiver check, then the dedicated
native boolean read at index+1; returns retVal not equal 0 together with
the mapped retcode. -/
def Samples.GetBoolean (env : NativeEnv) (conn : Option Connector) (input : Option Input)
    (samples : Option Samples) (index : Int) (fieldName : String) :
    Trace × GoOutcome (Bool × Option String) :=
  match samples with
  | none => ([], GoOutcome.ok (false, some "samples is null"))
  | some _ =>
    match input with
    | none => ([], GoOutcome.nilPanic)
    | some i =>
      match conn with
      | none => ([], GoOutcome.nilPanic)
      | some c =>
        let call := NativeCallDesc.getBooleanFromSample c.native i.nameCStr (index + 1) fieldName
        ([call],
          GoOutcome.ok (env.cint call != 0, checkRetcode env.lastErrorMessage (env.retcode call)))

/-- Samples.GetString (sample.go): nil-receiver check, then the dedicated
native string read at index+1; on a native error returns the empty string
with the error, on success copies and frees the returned C string. -/
def Samples.GetString (env : NativeEnv) (conn : Option Connector) (input : Option Input)
    (samples : Option Samples) (index : Int) (fieldName : String) :
    Trace × GoOutcome (String × Option String) :=
  match samples with
  | none => ([], GoOutcome.ok ("", some "samples is null"))
  | some _ =>
    match input with
    | none => ([], GoOutcome.nilPanic)
    | some i =>
      match conn with
      | none => ([], GoOutcome.nilPanic)
      | some c =>
        let call := NativeCallDesc.getStringFromSample c.native i.nameCStr (index + 1) fieldName
        ([call],
          GoOutcome.ok
            (match checkRetcode env.lastErrorMessage (env.retcode call) with
             | some e => ("", some e)
             | none => (env.cstr call, none)))

/-- Samples.GetJSON (sample.go): nil-receiver check, then the native JSON
serialization of the sample at index+1. -/
def Samples.GetJSON (env : NativeEnv) (conn : Option Connector) (input : Option Input)
    (samples : Option Samples) (index : Int) :
    Trace × GoOutcome (String × Option String) :=
  match samples with
  | none => ([], GoOutcome.ok ("", some "samples is null"))
  | some _ =>
    match input with
    | none => ([], GoOutcome.nilPanic)
    | some i =>
      match conn with
      | none => ([], GoOutcome.nilPanic)
      | some c =>
        let call := NativeCallDesc.getJSONSample c.native i.nameCStr (index + 1)
        ([call],
          GoOutcome.ok
            (match checkRetcode env.lastErrorMessage (env.retcode call) with
             | some e => ("", some e)
             | none => (env.cstr call, none)))

/-- Samples.Get (sample.go): GetJSON at the index, then,
if its error was nil, json.Unmarshal of the returned text into the target;
`unmarshal` stands for the json.Unmarshal step for the given target value
(its result is the error json.Unmarshal returns). -/
def Samples.Get (env : NativeEnv) (conn : Option Connector) (input : Option Input)
    (samples : Option Samples) (index : Int) (unmarshal : String → Option String) :
    Trace × GoOutcome (Option String) :=
  let r := Samples.GetJSON env conn input samples index
  match r.2 with
  | GoOutcome.nilPanic => (r.1, GoOutcome.nilPanic)
  | GoOutcome.ok (_, some e) => (r.1, GoOutcome.ok (some e))
  | GoOutcome.ok (jsonData, none) => (r.1, GoOutcome.ok (unmarshal jsonData))

/-- Infos.IsValid (infos file): full nil-chain check with short-circuit
evaluation, then the negative-index rejection, then the native boolean
metadata read of the valid_data member at index+1. -/
def Infos.IsValid (env : NativeEnv) (conn : Option Connector) (input : Option Input)
    (infos : Option Infos) (index : Int) :
    Trace × GoOutcome (Bool × Option String) :=
  match infos, input, conn with
  | none, _, _ => ([], GoOutcome.ok (false, some "infos, input, or connector is null"))
  | some _, none, _ => ([], GoOutcome.ok (false, some "infos, input, or connector is null"))
  | some _, some _, none => ([], GoOutcome.ok (false, some "infos, input, or connector is null"))
  | some _, some i, some c =>
    if index < 0 then ([], GoOutcome.ok (false, some "index cannot be negative"))
    else
      let call := NativeCallDesc.getBooleanFromInfos c.native i.nameCStr (index + 1) "valid_data"
      ([call],
        GoOutcome.ok (env.cint call != 0, checkRetcode env.lastErrorMessage (env.retcode call)))

/-- Infos.getJSONMember (infos file): no nil check at all (a nil receiver
or nil back-pointer is dereferenced), no index validation, then the native
JSON metadata read of the member at index+1. -/
def Infos.getJSONMember (env : NativeEnv) (conn : Option Connector) (input : Option Input)
    (infos : Option Infos) (index : Int) (memberName : String) :
    Trace × GoOutcome (String × Option String) :=
  match infos with
  | none => ([], GoOutcome.nilPanic)
  | some _ =>
    match input with
    | none => ([], GoOutcome.nilPanic)
    | some i =>
      match conn with
      | none => ([], GoOutcome.nilPanic)
      | some c =>
        let call := NativeCallDesc.getJSONFromInfos c.native i.nameCStr (index + 1) memberName
        ([call],
          GoOutcome.ok
            (match checkRetcode env.lastErrorMessage (env.retcode call) with
             | some e => ("", some e)
             | none => (env.cstr call, none)))

/-- Infos.GetLength (infos file): no nil check; dereferences the chain and
performs the native sample count. -/
def Infos.GetLength (env : NativeEnv) (conn : Option Connector) (input : Option Input)
    (infos : Option Infos) : Trace × GoOutcome (Int × Option String) :=
  match infos with
  | none => ([], GoOutcome.nilPanic)
  | some _ =>
    match input with
    | none => ([], GoOutcome.nilPanic)
    | some i =>
      match conn with
      | none => ([], GoOutcome.nilPanic)
      | some c =>
        let call := NativeCallDesc.getSampleCount c.native i.nameCStr
        ([call],
          GoOutcome.ok (env.double call, checkRetcode env.lastErrorMessage (env.retcode call)))

/-- Instance.SetUint8 (instance file): no nil check; allocates the field
name buffer, dereferences instance.output.connector.native and performs
the native set-number with double(value). -/
def Instance.SetUint8 (env : NativeEnv) (conn : Option Connector) (output : Option Output)
    (inst : Option Instance) (fieldName : String) (value : Int) :
    Trace × GoOutcome (Option String) :=
  match inst with
  | none => ([], GoOutcome.nilPanic)
  | some _ =>
    match output with
    | none => ([], GoOutcome.nilPanic)
    | some o =>
      match conn with
      | none => ([], GoOutcome.nilPanic)
      | some c =>
        let call := NativeCallDesc.setNumber c.native o.nameCStr fieldName value
        ([call], GoOutcome.ok (checkRetcode env.lastErrorMessage (env.retcode call)))

/-- Instance.SetInt32 (instance file): identical shape to SetUint8 and
likewise without a nil check. -/
def Instance.SetInt32 (env : NativeEnv) (conn : Option Connector) (output : Option Output)
    (inst : Option Instance) (fieldName : String) (value : Int) :
    Trace × GoOutcome (Option String) :=
  match inst with
  | none => ([], GoOutcome.nilPanic)
  | some _ =>
    match output with
    | none => ([], GoOutcome.nilPanic)
    | some o =>
      match conn with
      | none => ([], GoOutcome.nilPanic)
      | some c =>
        let call := NativeCallDesc.setNumber c.native o.nameCStr fieldName value
        ([call], GoOutcome.ok (checkRetcode env.lastErrorMessage (env.retcode call)))

/-- Instance.SetString (instance file): the one setter with a guard; full
nil-chain check and empty-field-name rejection before the native call. -/
def Instance.SetString (env : NativeEnv) (conn : Option Connector) (output : Option Output)
    (inst : Option Instance) (fieldName : String) (value : String) :
    Trace × GoOutcome (Option String) :=
  match inst, output, conn with
  | none, _, _ => ([], GoOutcome.ok (some "instance, output, or connector is null"))
  | some _, none, _ => ([], GoOutcome.ok (some "instance, output, or connector is null"))
  | some _, some _, none => ([], GoOutcome.ok (some "instance, output, or connector is null"))
  | some _, some o, some c =>
    if fieldName = "" then ([], GoOutcome.ok (some "fieldName cannot be empty"))
    else
      let call := NativeCallDesc.setString c.native o.nameCStr fieldName value
      ([call], GoOutcome.ok (checkRetcode env.lastErrorMessage (env.retcode call)))

/-- Instance.SetJSON (instance file): no nil check; the native set of the
whole staging record from the JSON blob. -/
def Instance.SetJSON (env : NativeEnv) (conn : Option Connector) (output : Option Output)
    (inst : Option Instance) (blob : String) :
    Trace × GoOutcome (Option String) :=
  match inst with
  | none => ([], GoOutcome.nilPanic)
  | some _ =>
    match output with
    | none => ([], GoOutcome.nilPanic)
    | some o =>
      match conn with
      | none => ([], GoOutcome.nilPanic)
      | some c =>
        let call := NativeCallDesc.setJSONInstance c.native o.nameCStr blob
        ([call], GoOutcome.ok (checkRetcode env.lastErrorMessage (env.retcode call)))

/-- Instance.Set (instance file): json.Marshal of the value, returning the
marshal error unchanged on failure, and SetJSON of the produced bytes on
success; `marshalled` stands for the result of json.Marshal on the given
value. -/
def Instance.Set (env : NativeEnv) (conn : Option Connector) (output : Option Output)
    (inst : Option Instance) (marshalled : Except String String) :
    Trace × GoOutcome (Option String) :=
  match marshalled with
  | Except.error e => ([], GoOutcome.ok (some e))
  | Except.ok jsonData => Instance.SetJSON env conn output inst jsonData

/-- Modelled from the spec: the claimed reading of the structured getter,
"GetStructured(index, out) rides on GetJSON: unmarshal the bulk JSON of
the sample at that index, propagating the GetJSON error unchanged". -/
def specStructuredGet (env : NativeEnv) (conn : Option Connector) (input : Option Input)
    (samples : Option Samples) (index : Int) (unmarshal : String → Option String) :
    Trace × GoOutcome (Option String) :=
  match Samples.GetJSON env conn input samples index with
  | (t, GoOutcome.nilPanic) => (t, GoOutcome.nilPanic)
  | (t, GoOutcome.ok (json, e)) =>
    (t, GoOutcome.ok (match e with
      | some err => some err
      | none => unmarshal json))

/-- Modelled from the spec: the claimed reading of the structured setter,
"SetStructured(value) rides on SetJSON: marshal the value to JSON,
propagating the marshal error unchanged, then SetJSON the bytes". -/
def specStructuredSet (env : NativeEnv) (conn : Option Connector) (output : Option Output)
    (inst : Option Instance) (marshalled : Except String String) :
    Trace × GoOutcome (Option String) :=
  match marshalled with
  | Except.error e => ([], GoOutcome.ok (some e))
  | Except.ok blob => Instance.SetJSON env conn output inst blob

/-- The connector state after one Delete call. -/
def deleteState (s : Option Connector) : Option Connector := (Connector.Delete s).1

/-- The connector state after k further Delete calls. -/
def deleteIter : Nat → Option Connector → Option Connector
  | 0, s => s
  | Nat.succ k, s => deleteIter k (deleteState s)

/-- The buffer-release events of a trace. -/
def freesOf (t : Trace) : List Nat :=
  t.filterMap fun d =>
    match d with
    | NativeCallDesc.free b => some b
    | _ => none

/-- All buffer-release events over a sequence of n Delete calls starting
from the given connector state. -/
def deleteFreeLog : Nat → Option Connector → List Nat
  | 0, _ => []
  | Nat.succ k, s =>
    freesOf (Connector.Delete s).2.1 ++ deleteFreeLog k (Connector.Delete s).1

/-- The name buffers owned by the children of a connector, in the order
Delete releases them. -/
def ownedBufs (c : Connector) : List Nat :=
  c.Inputs.map Input.nameCStr ++ c.Outputs.map Output.nameCStr

/-- A trivial native oracle for concrete evaluations: every lookup fails,
every retcode is 0 and every out-parameter is zero or empty. -/
def envZero : NativeEnv :=
  { datawriter := fun _ => none, datareader := fun _ => none,
    retcode := fun _ => 0, double := fun _ => 0, cint := fun _ => 0,
    cstr := fun _ => "", lastErrorMessage := "" }

/-- A native oracle under which the writer and reader lookups for the test
profile names succeed. -/
def envLookup : NativeEnv :=
  { datawriter := fun s => if s = "MyPublisher::MyWriter" then some 3 else none,
    datareader := fun s => if s = "MySubscriber::MyReader" then some 4 else none,
    retcode := fun _ => 0, double := fun _ => 0, cint := fun _ => 0,
    cstr := fun _ => "", lastErrorMessage := "" }

/-- A previously obtained reader handle (as newInput builds it). -/
def inputStale : Input := { native := some 7, name := "MySubscriber::MyReader", nameCStr := 5 }

/-- A previously obtained writer handle. -/
def outputStale : Output := { native := some 8, name := "MyPublisher::MyWriter", nameCStr := 9 }

/-- A connector whose Delete has already run: native handle gone, child
collections cleared. -/
def connDeleted : Connector := { native := none, Inputs := [], Outputs := [] }

/-- A live connector owning one reader and one writer child handle. -/
def connLive : Connector :=
  { native := some 1, Inputs := [inputStale], Outputs := [outputStale] }

/-- Whether a returned Go error message mentions the deleted marker. -/
def mentionsDeleted : Option String → Bool
  | none => false
  | some s => (s.splitOn "deleted").length != 1

/-- The error value returned by an operation that did not panic. -/
def GoOutcome.errVal : GoOutcome (Option String) → Option String
  | .ok e => e
  | .nilPanic => none

theorem delete_fixpoint (c : Connector) (h : c.native = none) :
    Connector.Delete (some c) = (some c, [], none) := by
  simp [Connector.Delete, h]

theorem delete_live (c : Connector) (h0 : Nat) (hn : c.native = some h0) :
    Connector.Delete (some c) =
      (some { native := none, Inputs := [], Outputs := [] },
       (c.Inputs.map fun i => NativeCallDesc.free i.nameCStr) ++
       (c.Outputs.map fun o => NativeCallDesc.free o.nameCStr) ++
       [NativeCallDesc.connectorDelete h0], none) := by
  simp [Connector.Delete, hn]

theorem deleteIter_fixpoint (k : Nat) (c : Connector) (h : c.native = none) :
    deleteIter k (some c) = some c := by
  induction k with
  | zero => rfl
  | succ k ih => simp [deleteIter, deleteState, delete_fixpoint c h, ih]

theorem freesOf_map_free {α : Type} (f : α → Nat) (l : List α) :
    freesOf (l.map fun x => NativeCallDesc.free (f x)) = l.map f := by
  induction l with
  | nil => rfl
  | cons x xs ih => simpa [freesOf] using ih

theorem deleteFreeLog_deleted (k : Nat) (c : Connector) (h : c.native = none) :
    deleteFreeLog k (some c) = [] := by
  induction k with
  | zero => rfl
  | succ k ih => simp [deleteFreeLog, delete_fixpoint c h, freesOf, ih]

/-- Claim C2: for every non-nil Connector, any Delete call made after a
first successful Delete returns a nil error and is a no-op: the first
Delete succeeds, leaves a state whose native handle is absent, and every
later Delete call returns that same state unchanged with an empty trace
and a nil error. -/
theorem c2_second_delete_noop (c : Connector) (k : Nat) :
    (Connector.Delete (some c)).2.2 = none ∧
    (∃ c1, deleteState (some c) = some c1 ∧ c1.native = none) ∧
    Connector.Delete (deleteIter k (deleteState (some c)))
      = (deleteState (some c), [], none) := by
  cases hn : c.native with
  | none =>
    have hfix : Connector.Delete (some c) = (some c, [], none) := delete_fixpoint c hn
    have hds : deleteState (some c) = some c := by simp [deleteState, hfix]
    refine ⟨by rw [hfix], ⟨c, hds, hn⟩, ?_⟩
    rw [hds, deleteIter_fixpoint k c hn, hfix]
  | some h0 =>
    have hdel := delete_live c h0 hn
    have hds : deleteState (some c)
        = some { native := none, Inputs := [], Outputs := [] } := by
      simp [deleteState, hdel]
    refine ⟨by rw [hdel], ⟨_, hds, rfl⟩, ?_⟩
    rw [hds, deleteIter_fixpoint k _ rfl, delete_fixpoint _ rfl]

/-- Claim C3: across any number of Delete calls on one connector, the
buffer-release events are exactly the name buffers held by the Inputs and
Outputs collections before the first call, in that order; hence when those
buffers are pairwise distinct each one is released exactly once, no matter
how many further Delete calls follow. -/
theorem c3_buffers_freed_exactly_once (c : Connector) (h0 : Nat)
    (hc : c.native = some h0) (k : Nat) :
    deleteFreeLog (k + 1) (some c) = ownedBufs c ∧
    ((ownedBufs c).Nodup → ∀ b ∈ ownedBufs c,
      (deleteFreeLog (k + 1) (some c)).count b = 1) := by
  have hlog : deleteFreeLog (k + 1) (some c) = ownedBufs c := by
    have h1 : deleteFreeLog (k + 1) (some c)
        = freesOf (Connector.Delete (some c)).2.1
          ++ deleteFreeLog k (Connector.Delete (some c)).1 := rfl
    rw [h1, delete_live c h0 hc]
    have h2 : deleteFreeLog k
        (some ({ native := none, Inputs := [], Outputs := [] } : Connector)) = [] :=
      deleteFreeLog_deleted k _ rfl
    simp only [h2, List.append_nil, ownedBufs, freesOf, List.filterMap_append]
    rw [← freesOf, ← freesOf, ← freesOf, freesOf_map_free, freesOf_map_free]
    simp [freesOf]
  refine ⟨hlog, fun hnd b hb => ?_⟩
  rw [hlog]
  exact List.count_eq_one_of_mem hnd hb

/-- Witness for C3 at a live connector owning one reader and one writer
buffer, with three Delete calls in a row. -/
theorem c3_witness :
    connLive.native = some 1 ∧
    deleteFreeLog 3 (some connLive) = ownedBufs connLive :=
  ⟨rfl, (c3_buffers_freed_exactly_once connLive 1 rfl 2).1⟩

/-- Claim C1 fails as stated: with the connector already deleted,
Input.Read still dispatches a native read call (passing the null connector
handle) and its returned error is nil, so it neither avoids the native
layer nor mentions the deleted marker. -/
theorem c1_read_after_delete_counterexample :
    (Input.Read envZero (some connDeleted) (some inputStale)).1 ≠ [] ∧
    mentionsDeleted
      (GoOutcome.errVal (Input.Read envZero (some connDeleted) (some inputStale)).2)
      = false := by
  decide

/-- Claim C1 (amended): after Delete, the Connector operations (GetOutput,
GetInput, Wait) and all Output operations fail fast with the error
"connector has been deleted" and dispatch no native call; the Input
operations, which only guard against a nil receiver, instead dispatch
their native call anyway — Read and Take with the now-null connector
handle, WaitForPublications and GetMatchedPublications with the stored
(stale) reader handle — and return whatever the retcode mapping gives. -/
theorem c1_amended_use_after_delete (env : NativeEnv) (c : Connector)
    (hc : c.native = none) (i : Input) (o : Output) (nm ps : String)
    (st : AllocState) (t : Int) :
    Connector.GetOutput env (some c) nm st
      = { output := none, err := some "connector has been deleted", conn := some c,
          alloc := st, trace := [] } ∧
    Connector.GetInput env (some c) nm st
      = { input := none, err := some "connector has been deleted", conn := some c,
          alloc := st, trace := [] } ∧
    Connector.Wait env (some c) t = ([], some "connector has been deleted") ∧
    Output.Write env (some c) (some o) = ([], some "connector has been deleted") ∧
    Output.WriteWithParams env (some c) (some o) ps
      = ([], some "connector has been deleted") ∧
    Output.ClearMembers env (some c) (some o)
      = ([], some "connector has been deleted") ∧
    Output.WaitForSubscriptions env (some c) (some o) t
      = ([], (-1, some "connector has been deleted")) ∧
    Output.GetMatchedSubscriptions env (some c) (some o)
      = ([], ("", some "connector has been deleted")) ∧
    Input.Read env (some c) (some i)
      = ([NativeCallDesc.read none i.nameCStr],
         GoOutcome.ok (checkRetcode env.lastErrorMessage
           (env.retcode (NativeCallDesc.read none i.nameCStr)))) ∧
    Input.Take env (some c) (some i)
      = ([NativeCallDesc.take none i.nameCStr],
         GoOutcome.ok (checkRetcode env.lastErrorMessage
           (env.retcode (NativeCallDesc.take none i.nameCStr)))) ∧
    (Input.WaitForPublications env (some i) t).1
      = [NativeCallDesc.waitForMatchedPublication i.native t] ∧
    (Input.GetMatchedPublications env (some i)).1
      = [NativeCallDesc.getMatchedPublications i.native] := by
  refine ⟨?_, ?_, ?_, ?_, ?_, ?_, ?_, ?_, ?_, ?_, rfl, rfl⟩ <;>
    simp [Connector.GetOutput, Connector.GetInput, Connector.Wait, Connector.isValid,
      Output.Write, Output.WriteWithParams, Output.ClearMembers,
      Output.WaitForSubscriptions, Output.GetMatchedSubscriptions, Output.isValid,
      Input.Read, Input.Take, hc]

/-- Witness for C1 (amended) at the concrete deleted connector. -/
theorem c1_amended_witness :
    connDeleted.native = none ∧
    Connector.Wait envZero (some connDeleted) (-1)
      = ([], some "connector has been deleted") ∧
    Output.Write envZero (some connDeleted) (some outputStale)
      = ([], some "connector has been deleted") := by
  have h := c1_amended_use_after_delete envZero connDeleted rfl inputStale outputStale
    "nm" "ps" { next := 0 } (-1)
  exact ⟨rfl, h.2.2.1, h.2.2.2.1⟩

/-- Claim C4: the name-lookup helpers allocate one transient C name
buffer; when the native lookup returns NULL they release that buffer
before returning the error and leave the connector collections untouched,
and on success they append the new handle to the collection and return
it. -/
theorem c4_lookup_buffer (env : NativeEnv) (c : Connector) (nm : String)
    (st : AllocState) :
    (env.datawriter nm = none →
      newOutput env c nm st =
        { output := none, err := some "invalid Publication::DataWriter name",
          conn := c, alloc := { next := st.next + 1 },
          trace := [NativeCallDesc.alloc st.next,
            NativeCallDesc.getDatawriter c.native st.next,
            NativeCallDesc.free st.next] }) ∧
    (∀ w, env.datawriter nm = some w →
      newOutput env c nm st =
        { output := some { native := some w, name := nm, nameCStr := st.next },
          err := none,
          conn := { c with Outputs :=
            c.Outputs ++ [{ native := some w, name := nm, nameCStr := st.next }] },
          alloc := { next := st.next + 1 },
          trace := [NativeCallDesc.alloc st.next,
            NativeCallDesc.getDatawriter c.native st.next] }) ∧
    (env.datareader nm = none →
      newInput env c nm st =
        { input := none, err := some "invalid Subscription::DataReader name",
          conn := c, alloc := { next := st.next + 1 },
          trace := [NativeCallDesc.alloc st.next,
            NativeCallDesc.getDatareader c.native st.next,
            NativeCallDesc.free st.next] }) ∧
    (∀ r, env.datareader nm = some r →
      newInput env c nm st =
        { input := some { native := some r, name := nm, nameCStr := st.next },
          err := none,
          conn := { c with Inputs :=
            c.Inputs ++ [{ native := some r, name := nm, nameCStr := st.next }] },
          alloc := { next := st.next + 1 },
          trace := [NativeCallDesc.alloc st.next,
            NativeCallDesc.getDatareader c.native st.next] }) := by
  refine ⟨fun h => ?_, fun w h => ?_, fun h => ?_, fun r h => ?_⟩ <;>
    simp [newOutput, newInput, h]

/-- Witness for C4: a failing reader lookup under the concrete oracle
releases its transient buffer and leaves the connector unchanged. -/
theorem c4_witness :
    envLookup.datareader "bogus" = none ∧
    newInput envLookup connLive "bogus" { next := 10 }
      = { input := none, err := some "invalid Subscription::DataReader name",
          conn := connLive, alloc := { next := 11 },
          trace := [NativeCallDesc.alloc 10, NativeCallDesc.getDatareader (some 1) 10,
            NativeCallDesc.free 10] } := by
  have h := c4_lookup_buffer envLookup connLive "bogus" { next := 10 }
  exact ⟨by decide, h.2.2.1 (by decide)⟩

/-- Claim C5: checkRetcode maps 0 to the nil error, 11 to ErrNoData, 10 to
ErrTimeout, and every other code to an error carrying the native
last-error text, falling back to an "error code N" message when the native
layer offers no detail. -/
theorem c5_checkRetcode_taxonomy (lastErr : String) (rc : Int) :
    checkRetcode lastErr DDSRetCodeOK = none ∧
    checkRetcode lastErr DDSRetCodeNoData = some ErrNoData ∧
    checkRetcode lastErr DDSRetCodeTimeout = some ErrTimeout ∧
    (rc ≠ DDSRetCodeOK → rc ≠ DDSRetCodeNoData → rc ≠ DDSRetCodeTimeout →
      lastErr = "" →
      checkRetcode lastErr rc =
        some ("DDS Exception: error code " ++ toString rc ++
          " (no detailed message available from RTI Connector)")) ∧
    (rc ≠ DDSRetCodeOK → rc ≠ DDSRetCodeNoData → rc ≠ DDSRetCodeTimeout →
      lastErr ≠ "" →
      checkRetcode lastErr rc =
        some ("DDS Exception: " ++ lastErr ++ " (error code " ++ toString rc ++ ")")) := by
  refine ⟨?_, ?_, ?_, fun h1 h2 h3 h4 => ?_, fun h1 h2 h3 h4 => ?_⟩
  · simp [checkRetcode, DDSRetCodeOK]
  · simp [checkRetcode, DDSRetCodeOK, DDSRetCodeNoData]
  · simp [checkRetcode, DDSRetCodeOK, DDSRetCodeNoData, DDSRetCodeTimeout]
  · simp only [checkRetcode, DDSRetCodeOK, DDSRetCodeNoData, DDSRetCodeTimeout] at h1 h2 h3 ⊢
    rw [if_neg h1, if_neg h2, if_neg h3, if_pos h4]
  · simp only [checkRetcode, DDSRetCodeOK, DDSRetCodeNoData, DDSRetCodeTimeout] at h1 h2 h3 ⊢
    rw [if_neg h1, if_neg h2, if_neg h3, if_neg h4]

/-- Witness for C5 at the unknown code 99, with and without native
detail. -/
theorem c5_witness :
    (99 : Int) ≠ DDSRetCodeOK ∧ (99 : Int) ≠ DDSRetCodeNoData ∧
    (99 : Int) ≠ DDSRetCodeTimeout ∧
    checkRetcode "" 99 =
      some ("DDS Exception: error code " ++ toString (99 : Int) ++
        " (no detailed message available from RTI Connector)") ∧
    checkRetcode "boom" 99 =
      some ("DDS Exception: " ++ "boom" ++ " (error code " ++ toString (99 : Int) ++ ")") := by
  refine ⟨by decide, by decide, by decide, ?_, ?_⟩
  · exact (c5_checkRetcode_taxonomy "" 99).2.2.2.1 (by decide) (by decide) (by decide) rfl
  · exact (c5_checkRetcode_taxonomy "boom" 99).2.2.2.2 (by decide) (by decide) (by decide)
      (by decide)

/-- Claim C6 is contradicted by the code: the unguarded Instance setters
(SetUint8, SetInt32, SetJSON) and the unguarded Infos accessors
(GetLength, getJSONMember) dereference a nil receiver and panic, while
the guarded accessors (Instance.SetString, Infos.IsValid) return the
descriptive error the claim — and the repository test
TestNullPointerHandling — expect from all of them. -/
theorem c6_nil_receiver_faults :
    Instance.SetUint8 envZero none none none "color" 1 = ([], GoOutcome.nilPanic) ∧
    Instance.SetInt32 envZero none none none "x" 0 = ([], GoOutcome.nilPanic) ∧
    Instance.SetJSON envZero none none none "" = ([], GoOutcome.nilPanic) ∧
    Infos.GetLength envZero none none none = ([], GoOutcome.nilPanic) ∧
    Infos.getJSONMember envZero none none none 0 "source_timestamp"
      = ([], GoOutcome.nilPanic) ∧
    Instance.SetString envZero none none none "color" "RED"
      = ([], GoOutcome.ok (some "instance, output, or connector is null")) ∧
    Infos.IsValid envZero none none none 0
      = ([], GoOutcome.ok (false, some "infos, input, or connector is null")) :=
  ⟨rfl, rfl, rfl, rfl, rfl, rfl, rfl⟩

/-- Claim C7 fails as stated: a Samples getter at index minus one performs
the native call (with native index 0) and returns its mapped retcode; no
local InvalidArgument error is produced. -/
theorem c7_negative_index_counterexample :
    (Samples.getNumber envZero (some connLive) (some inputStale) (some Samples.mk)
      (-1) "x").1
      = [NativeCallDesc.getNumberFromSample (some 1) 5 0 "x"] ∧
    (Samples.getNumber envZero (some connLive) (some inputStale) (some Samples.mk)
      (-1) "x").2
      = GoOutcome.ok (0, none) := by
  constructor
  · show [NativeCallDesc.getNumberFromSample (some 1) 5 (-1 + 1) "x"] = _
    norm_num
  · rfl

/-- Claim C7 (amended): only Infos.IsValid validates the index locally —
a negative index is rejected with its own error before any native call —
while the Samples getters and the JSON-member Infos getters pass
index plus one to the native layer without local validation. -/
theorem c7_amended_negative_index (env : NativeEnv) (c : Connector) (i : Input)
    (idx : Int) (hneg : idx < 0) (f m : String) :
    Infos.IsValid env (some c) (some i) (some Infos.mk) idx
      = ([], GoOutcome.ok (false, some "index cannot be negative")) ∧
    (Samples.getNumber env (some c) (some i) (some Samples.mk) idx f).1
      = [NativeCallDesc.getNumberFromSample c.native i.nameCStr (idx + 1) f] ∧
    (Samples.GetJSON env (some c) (some i) (some Samples.mk) idx).1
      = [NativeCallDesc.getJSONSample c.native i.nameCStr (idx + 1)] ∧
    (Infos.getJSONMember env (some c) (some i) (some Infos.mk) idx m).1
      = [NativeCallDesc.getJSONFromInfos c.native i.nameCStr (idx + 1) m] := by
  refine ⟨?_, rfl, rfl, rfl⟩
  simp [Infos.IsValid, hneg]

/-- Witness for C7 (amended) at index minus one. -/
theorem c7_amended_witness :
    (-1 : Int) < 0 ∧
    Infos.IsValid envZero (some connLive) (some inputStale) (some Infos.mk) (-1)
      = ([], GoOutcome.ok (false, some "index cannot be negative")) :=
  ⟨by decide,
   (c7_amended_negative_index envZero connLive inputStale (-1) (by decide) "x" "m").1⟩

/-- Claim C8: every numeric getter on Samples performs exactly the single
getNumber boundary call (read the field as a double at native index
index plus one) and then narrow-casts the payload to its target width by
truncate-and-wrap; the error component is exactly the mapped retcode,
unaffected by the payload value, so an out-of-range payload wraps rather
than erroring.  The float getters return the payload itself (binary32
rounding is outside the integral payload model). -/
theorem c8_numeric_getters_funnel (env : NativeEnv) (c : Connector) (i : Input)
    (idx : Int) (f : String) :
    let call := NativeCallDesc.getNumberFromSample c.native i.nameCStr (idx + 1) f
    let e := checkRetcode env.lastErrorMessage (env.retcode call)
    Samples.GetUint8 env (some c) (some i) (some Samples.mk) idx f
      = ([call], GoOutcome.ok (wrapU 8 (env.double call), e)) ∧
    Samples.GetUint16 env (some c) (some i) (some Samples.mk) idx f
      = ([call], GoOutcome.ok (wrapU 16 (env.double call), e)) ∧
    Samples.GetUint32 env (some c) (some i) (some Samples.mk) idx f
      = ([call], GoOutcome.ok (wrapU 32 (env.double call), e)) ∧
    Samples.GetUint64 env (some c) (some i) (some Samples.mk) idx f
      = ([call], GoOutcome.ok (wrapU 64 (env.double call), e)) ∧
    Samples.GetInt8 env (some c) (some i) (some Samples.mk) idx f
      = ([call], GoOutcome.ok (wrapS 8 (env.double call), e)) ∧
    Samples.GetInt16 env (some c) (some i) (some Samples.mk) idx f
      = ([call], GoOutcome.ok (wrapS 16 (env.double call), e)) ∧
    Samples.GetInt32 env (some c) (some i) (some Samples.mk) idx f
      = ([call], GoOutcome.ok (wrapS 32 (env.double call), e)) ∧
    Samples.GetInt64 env (some c) (some i) (some Samples.mk) idx f
      = ([call], GoOutcome.ok (wrapS 64 (env.double call), e)) ∧
    Samples.GetInt env (some c) (some i) (some Samples.mk) idx f
      = ([call], GoOutcome.ok (wrapS 64 (env.double call), e)) ∧
    Samples.GetUint env (some c) (some i) (some Samples.mk) idx f
      = ([call], GoOutcome.ok (wrapU 64 (env.double call), e)) ∧
    Samples.GetByte env (some c) (some i) (some Samples.mk) idx f
      = ([call], GoOutcome.ok (wrapU 8 (env.double call), e)) ∧
    Samples.GetRune env (some c) (some i) (some Samples.mk) idx f
      = ([call], GoOutcome.ok (wrapS 32 (env.double call), e)) ∧
    Samples.GetFloat32 env (some c) (some i) (some Samples.mk) idx f
      = ([call], GoOutcome.ok (env.double call, e)) ∧
    Samples.GetFloat64 env (some c) (some i) (some Samples.mk) idx f
      = ([call], GoOutcome.ok (env.double call, e)) :=
  ⟨rfl, rfl, rfl, rfl, rfl, rfl, rfl, rfl, rfl, rfl, rfl, rfl, rfl, rfl⟩

/-- Claim C9: the structured marshalling pair rides exactly on the bulk
JSON operations — Samples.Get equals unmarshal-after-GetJSON with the
GetJSON error propagated unchanged, and Instance.Set equals
SetJSON-after-marshal with the marshal error propagated unchanged — for
every receiver chain, index, unmarshal target and marshal result. -/
theorem c9_structured_rides_on_json (env : NativeEnv) (conn : Option Connector)
    (input : Option Input) (samples : Option Samples) (output : Option Output)
    (inst : Option Instance) (idx : Int) (unmarshal : String → Option String)
    (marshalled : Except String String) :
    Samples.Get env conn input samples idx unmarshal
      = specStructuredGet env conn input samples idx unmarshal ∧
    Instance.Set env conn output inst marshalled
      = specStructuredSet env conn output inst marshalled := by
  constructor
  · unfold Samples.Get specStructuredGet
    generalize Samples.GetJSON env conn input samples idx = r
    obtain ⟨t, o⟩ := r
    cases o with
    | nilPanic => rfl
    | ok p =>
      obtain ⟨s, e⟩ := p
      cases e <;> rfl
  · unfold Instance.Set specStructuredSet
    cases marshalled <;> rfl

/-- Claim C10: every indexed accessor on Samples and Infos addresses the
native layer at index plus one: for each public index the single boundary
call carries exactly that translated index (for Infos.IsValid, once the
local negative-index guard has passed). -/
theorem c10_one_based_translation (env : NativeEnv) (c : Connector) (i : Input)
    (idx : Int) (hidx : 0 ≤ idx) (f m : String) :
    (Samples.getNumber env (some c) (some i) (some Samples.mk) idx f).1
      = [NativeCallDesc.getNumberFromSample c.native i.nameCStr (idx + 1) f] ∧
    (Samples.GetBoolean env (some c) (some i) (some Samples.mk) idx f).1
      = [NativeCallDesc.getBooleanFromSample c.native i.nameCStr (idx + 1) f] ∧
    (Samples.GetString env (some c) (some i) (some Samples.mk) idx f).1
      = [NativeCallDesc.getStringFromSample c.native i.nameCStr (idx + 1) f] ∧
    (Samples.GetJSON env (some c) (some i) (some Samples.mk) idx).1
      = [NativeCallDesc.getJSONSample c.native i.nameCStr (idx + 1)] ∧
    (Infos.IsValid env (some c) (some i) (some Infos.mk) idx).1
      = [NativeCallDesc.getBooleanFromInfos c.native i.nameCStr (idx + 1) "valid_data"] ∧
    (Infos.getJSONMember env (some c) (some i) (some Infos.mk) idx m).1
      = [NativeCallDesc.getJSONFromInfos c.native i.nameCStr (idx + 1) m] := by
  refine ⟨rfl, rfl, rfl, rfl, ?_, rfl⟩
  simp [Infos.IsValid, not_lt.mpr hidx]

/-- Witness for C10 at public index zero (native index one). -/
theorem c10_witness :
    (0 : Int) ≤ 0 ∧
    (Samples.getNumber envZero (some connLive) (some inputStale) (some Samples.mk)
      0 "x").1
      = [NativeCallDesc.getNumberFromSample (some 1) 5 1 "x"] :=
  ⟨by decide,
   (c10_one_based_translation envZero connLive inputStale 0 (by decide) "x" "m").1⟩
